import Mathlib

/-!
Shallow embedding of the scroll-driven spatial-motion orchestration core
(SceneManager, TransitionEngine, CameraDirector momentum) with theorems
checking the specified behaviour against the embedded code.

Numbers are modelled as exact rationals; the JS source performs only
field arithmetic and comparisons on them.  Fields that no verified
operation reads (the advisory `lighting` hint, the `startTime` stamp of a
transition record) are not carried in the model.
-/

namespace SpatialMotion

/-- A 3-component vector (position / look-at target). -/
structure Vec3 where
  x : ℚ
  y : ℚ
  z : ℚ
deriving DecidableEq

/-- An authored camera pose: position, look-at target, field of view. -/
structure Camera where
  position : Vec3
  lookAt : Vec3
  fov : ℚ
deriving DecidableEq

/-- Authored background-shader parameters: two RGB colors (components
`colorA[0..2]`, `colorB[0..2]` in the source arrays) and a frequency. -/
structure Shader where
  colorA0 : ℚ
  colorA1 : ℚ
  colorA2 : ℚ
  colorB0 : ℚ
  colorB1 : ℚ
  colorB2 : ℚ
  frequency : ℚ
deriving DecidableEq

/-- A narrative scene: depth range `[zEnd, zStart]`, camera pose, shader
palette, and the registry of object handles (opaque in this model). -/
structure Scene where
  name : String
  zStart : ℚ
  zEnd : ℚ
  camera : Camera
  shader : Shader
  objects : List Nat
deriving DecidableEq

instance : Inhabited Scene :=
  ⟨{ name := "", zStart := 0, zEnd := 0,
     camera := { position := ⟨0, 0, 0⟩, lookAt := ⟨0, 0, 0⟩, fov := 0 },
     shader := { colorA0 := 0, colorA1 := 0, colorA2 := 0,
                 colorB0 := 0, colorB1 := 0, colorB2 := 0, frequency := 0 },
     objects := [] }⟩

/-- `SceneManager.config.anticipationDistance` (0.15). -/
def anticipationDistance : ℚ := 0.15

/-- The authored scene list built by `SceneManager.defineScenes`. -/
def definedScenes : List Scene :=
  [ { name := "hero", zStart := 0, zEnd := -50,
      camera := { position := ⟨0, 0, 10⟩, lookAt := ⟨0, 0, 0⟩, fov := 75 },
      shader := { colorA0 := 1.0, colorA1 := 0.08, colorA2 := 0.58,
                  colorB0 := 0.08, colorB1 := 0.04, colorB2 := 0.18,
                  frequency := 0.8 },
      objects := [] },
    { name := "philosophy", zStart := -50, zEnd := -120,
      camera := { position := ⟨-5, 3, -80⟩, lookAt := ⟨0, 0, -85⟩, fov := 60 },
      shader := { colorA0 := 0.62, colorA1 := 0.31, colorA2 := 0.87,
                  colorB0 := 0.09, colorB1 := 0.00, colorB2 := 0.12,
                  frequency := 1.2 },
      objects := [] },
    { name := "services", zStart := -120, zEnd := -200,
      camera := { position := ⟨3, -2, -160⟩, lookAt := ⟨0, 0, -165⟩, fov := 50 },
      shader := { colorA0 := 1.0, colorA1 := 0.41, colorA2 := 0.71,
                  colorB0 := 0.10, colorB1 := 0.02, colorB2 := 0.13,
                  frequency := 1.5 },
      objects := [] },
    { name := "contact", zStart := -200, zEnd := -280,
      camera := { position := ⟨0, 5, -240⟩, lookAt := ⟨0, 0, -250⟩, fov := 80 },
      shader := { colorA0 := 0.55, colorA1 := 0.36, colorA2 := 0.96,
                  colorB0 := 0.05, colorB1 := 0.02, colorB2 := 0.08,
                  frequency := 2.0 },
      objects := [] } ]

/-- `SceneManager.getLocalProgress`: normalized, clamped position of
`currentZ` inside a scene's depth range. -/
def getLocalProgress (scene : Scene) (currentZ : ℚ) : ℚ :=
  let sceneLength := |scene.zEnd - scene.zStart|
  let distanceInScene := |currentZ - scene.zStart|
  min 1 (max 0 (distanceInScene / sceneLength))

/-- Result record of `getCurrentScene`. -/
structure SceneHit where
  scene : Scene
  index : ℕ
  localProgress : ℚ
deriving DecidableEq

/-- The scan loop of `getCurrentScene`: first scene (from index `i`
upward) whose `[zEnd, zStart]` range contains `currentZ`. -/
def findScene : List Scene → ℕ → ℚ → Option SceneHit
  | [], _, _ => none
  | s :: rest, i, z =>
      if s.zEnd ≤ z ∧ z ≤ s.zStart then
        some ⟨s, i, getLocalProgress s z⟩
      else
        findScene rest (i + 1) z

/-- `SceneManager.getCurrentScene`: maps scroll progress to depth
`currentZ = -p * |last.zEnd|`, scans for the containing scene, and falls
back to the last scene with `localProgress = 1` when the scan misses. -/
def getCurrentScene (scenes : List Scene) (scrollProgress : ℚ) : SceneHit :=
  let totalDistance := |(scenes.getLastD default).zEnd|
  let currentZ := -scrollProgress * totalDistance
  match findScene scenes 0 currentZ with
  | some hit => hit
  | none => ⟨scenes.getLastD default, scenes.length - 1, 1⟩

/-- `SceneManager.lerp`. -/
def lerp (start finish t : ℚ) : ℚ :=
  start + (finish - start) * t

/-- `SceneManager.easeInOutCubic`. -/
def easeInOutCubic (t : ℚ) : ℚ :=
  if t < 0.5 then 4 * t * t * t
  else 1 - (-2 * t + 2) ^ 3 / 2

/-- The net transition amount of `getInterpolatedCamera` (source lines
167–178): starts at 0, set to `easeInOutCubic(zone progress) * 0.3`
inside the anticipation zone, then overwritten to 1 when
`localProgress === 1` (the later assignment wins). -/
def cameraTransitionAmount (localProgress : ℚ) : ℚ :=
  if localProgress = 1 then 1
  else if localProgress > 1 - anticipationDistance then
    easeInOutCubic ((localProgress - (1 - anticipationDistance)) / anticipationDistance) * 0.3
  else 0

/-- `SceneManager.getInterpolatedCamera`. -/
def getInterpolatedCamera (scenes : List Scene) (scrollProgress : ℚ) : Camera :=
  let hit := getCurrentScene scenes scrollProgress
  match scenes.get? (hit.index + 1) with
  | none =>
      { position := hit.scene.camera.position,
        lookAt := hit.scene.camera.lookAt,
        fov := hit.scene.camera.fov }
  | some nextScene =>
      let t := cameraTransitionAmount hit.localProgress
      let currentCam := hit.scene.camera
      let nextCam := nextScene.camera
      { position := ⟨lerp currentCam.position.x nextCam.position.x t,
                     lerp currentCam.position.y nextCam.position.y t,
                     lerp currentCam.position.z nextCam.position.z t⟩,
        lookAt := ⟨lerp currentCam.lookAt.x nextCam.lookAt.x t,
                   lerp currentCam.lookAt.y nextCam.lookAt.y t,
                   lerp currentCam.lookAt.z nextCam.lookAt.z t⟩,
        fov := lerp currentCam.fov nextCam.fov t }

/-- The transition amount of `getInterpolatedShader` (source lines
210–214): full-range ease inside the anticipation zone, no 0.3 scale,
no special case at `localProgress = 1`. -/
def shaderTransitionAmount (localProgress : ℚ) : ℚ :=
  if localProgress > 1 - anticipationDistance then
    easeInOutCubic ((localProgress - (1 - anticipationDistance)) / anticipationDistance)
  else 0

/-- `SceneManager.getInterpolatedShader`. -/
def getInterpolatedShader (scenes : List Scene) (scrollProgress : ℚ) : Shader :=
  let hit := getCurrentScene scenes scrollProgress
  match scenes.get? (hit.index + 1) with
  | none => hit.scene.shader
  | some nextScene =>
      let t := shaderTransitionAmount hit.localProgress
      { colorA0 := lerp hit.scene.shader.colorA0 nextScene.shader.colorA0 t,
        colorA1 := lerp hit.scene.shader.colorA1 nextScene.shader.colorA1 t,
        colorA2 := lerp hit.scene.shader.colorA2 nextScene.shader.colorA2 t,
        colorB0 := lerp hit.scene.shader.colorB0 nextScene.shader.colorB0 t,
        colorB1 := lerp hit.scene.shader.colorB1 nextScene.shader.colorB1 t,
        colorB2 := lerp hit.scene.shader.colorB2 nextScene.shader.colorB2 t,
        frequency := lerp hit.scene.shader.frequency nextScene.shader.frequency t }

/-- `SceneManager.addObjectToScene`: append to the first scene with the
given name; silently unchanged when no scene matches. -/
def addObjectToScene : List Scene → String → Nat → List Scene
  | [], _, _ => []
  | s :: rest, sceneName, obj =>
      if s.name = sceneName then
        { s with objects := s.objects ++ [obj] } :: rest
      else
        s :: addObjectToScene rest sceneName obj

/-- `SceneManager.getObjectVisibility`. -/
def getObjectVisibility (scenes : List Scene) (sceneName : String) (scrollProgress : ℚ) : ℚ :=
  match scenes.find? (fun s => s.name == sceneName) with
  | none => 0
  | some _ =>
      let hit := getCurrentScene scenes scrollProgress
      if hit.scene.name = sceneName then
        if hit.localProgress < 0.2 then hit.localProgress / 0.2
        else if hit.localProgress > 0.8 then 1 - ((hit.localProgress - 0.8) / 0.2)
        else 1
      else 0

/-- TransitionEngine states (`IDLE`, `ANTICIPATE`, `MORPHING`, `SETTLING`). -/
inductive TState where
  | idle
  | anticipating
  | morphing
  | settling
deriving DecidableEq

/-- Transition lifecycle callbacks, recorded as an event log: the engine
invokes each registered callback list synchronously, so firing an event
once corresponds to one log entry here. -/
inductive TEvent where
  | onAnticipate
  | onMorph
  | onSettle
  | onComplete
deriving DecidableEq

/-- The ephemeral transition record `{from, to, forced}`.  `from` is the
scene read at creation, `to` may be absent past the last scene; `forced`
is set only by `forceTransitionTo` (absent, hence falsy, otherwise).
The `startTime` wall-clock stamp is unread and not modelled. -/
structure Transition where
  fromScene : Option Scene
  toScene : Option Scene
  forced : Bool
deriving DecidableEq

/-- TransitionEngine state: machine state, progress accumulator, current
transition, scroll-direction tracking, and the timing configuration. -/
structure TransitionEngine where
  state : TState
  transitionProgress : ℚ
  currentTransition : Option Transition
  previousScroll : ℚ
  scrollDirection : ℤ
  anticipationDuration : ℚ
  morphDuration : ℚ
  settleDuration : ℚ
  overshootAmount : ℚ
deriving DecidableEq

namespace TransitionEngine

/-- The constructor's initial engine state and default timing config. -/
def mkEngine : TransitionEngine :=
  { state := .idle, transitionProgress := 0, currentTransition := none,
    previousScroll := 0, scrollDirection := 1,
    anticipationDuration := 0.3, morphDuration := 0.8,
    settleDuration := 0.4, overshootAmount := 0.08 }

/-- `enterAnticipation`: fires `onAnticipate`.  (The object nudge of
`anticipatoryMotion` moves opaque object handles, which carry no
position in this model; no verified observation reads it.) -/
def enterAnticipation (e : TransitionEngine) : TransitionEngine × List TEvent :=
  ({ e with state := .anticipating, transitionProgress := 0 }, [.onAnticipate])

/-- `enterMorph`: records `{from := scene, to := scenes[index+1]}` and
fires `onMorph`. -/
def enterMorph (scenes : List Scene) (e : TransitionEngine) (scene : Scene) (index : ℕ) :
    TransitionEngine × List TEvent :=
  ({ e with
      state := .morphing
      transitionProgress := 0
      currentTransition := some ⟨some scene, scenes.get? (index + 1), false⟩ },
   [.onMorph])

/-- `enterSettle`: fires `onSettle`. -/
def enterSettle (e : TransitionEngine) : TransitionEngine × List TEvent :=
  ({ e with state := .settling, transitionProgress := 0 }, [.onSettle])

/-- `updateMorph`: accumulate `deltaTime / morphDuration`; settle at 1. -/
def updateMorph (e : TransitionEngine) (deltaTime : ℚ) : TransitionEngine × List TEvent :=
  let tp := e.transitionProgress + deltaTime / e.morphDuration
  if tp ≥ 1 then enterSettle { e with transitionProgress := tp }
  else ({ e with transitionProgress := tp }, [])

/-- `updateSettle`: accumulate `deltaTime / settleDuration`; at 1 return
to idle, fire `onComplete`, clear the transition (the progress
accumulator itself is left at its final value, as in the source). -/
def updateSettle (e : TransitionEngine) (deltaTime : ℚ) : TransitionEngine × List TEvent :=
  let tp := e.transitionProgress + deltaTime / e.settleDuration
  if tp ≥ 1 then
    ({ e with state := .idle, transitionProgress := tp, currentTransition := none },
     [.onComplete])
  else ({ e with transitionProgress := tp }, [])

/-- `TransitionEngine.update`: direction detection, zone detection, and
the state machine dispatch. -/
def update (scenes : List Scene) (e : TransitionEngine) (scrollProgress deltaTime : ℚ) :
    TransitionEngine × List TEvent :=
  let e :=
    if scrollProgress ≠ e.previousScroll then
      { e with scrollDirection := if scrollProgress > e.previousScroll then 1 else -1,
               previousScroll := scrollProgress }
    else e
  let hit := getCurrentScene scenes scrollProgress
  let isAnticipating := hit.localProgress > 0.85 ∧ e.scrollDirection > 0
  let isTransitioning := hit.localProgress > 0.95
  match e.state with
  | .idle => if isAnticipating then enterAnticipation e else (e, [])
  | .anticipating =>
      if isTransitioning then enterMorph scenes e hit.scene hit.index
      else if ¬isAnticipating then ({ e with state := .idle }, [])
      else (e, [])
  | .morphing => updateMorph e deltaTime
  | .settling => updateSettle e deltaTime

/-- `forceTransitionTo`: no-op on an invalid index, otherwise jump to
MORPHING with the target scene, `forced := true`, and the given duration
written into `config.morphDuration`.  `currentSceneIndex` is the scene
manager's field (it is initialized to 0 and never reassigned anywhere in
the sources). -/
def forceTransitionTo (scenes : List Scene) (currentSceneIndex : ℕ) (e : TransitionEngine)
    (sceneIndex : ℕ) (duration : ℚ) : TransitionEngine :=
  match scenes.get? sceneIndex with
  | none => e
  | some targetScene =>
      { e with
        state := .morphing
        transitionProgress := 0
        morphDuration := duration
        currentTransition := some ⟨scenes.get? currentSceneIndex, some targetScene, true⟩ }

end TransitionEngine

/-- Drive the engine through a list of `(scrollProgress, deltaTime)`
frames, collecting the state after each frame and the full event log. -/
def runScenario (scenes : List Scene) :
    TransitionEngine → List (ℚ × ℚ) → TransitionEngine × List TState × List TEvent
  | e, [] => (e, [], [])
  | e, (p, dt) :: rest =>
      let step := TransitionEngine.update scenes e p dt
      let tail := runScenario scenes step.1 rest
      (tail.1, step.1.state :: tail.2.1, step.2 ++ tail.2.2)

/-- The CameraDirector state touched by `applyMomentum`: the momentum
velocity and acceleration vectors, the tracked pointer velocity, and the
live camera position. -/
structure DirectorState where
  velocity : Vec3
  acceleration : Vec3
  mouseVelocityX : ℚ
  mouseVelocityY : ℚ
  cameraPosition : Vec3
deriving DecidableEq

/-- `CameraDirector.config.momentumDrag` (0.92). -/
def momentumDrag : ℚ := 0.92

/-- `CameraDirector.applyMomentum`: acceleration from pointer velocity
(x/y only; the z component is never written anywhere and stays as it
is), velocity integrated and decayed by drag, applied to the camera,
pointer velocity decayed by 0.85. -/
def applyMomentum (s : DirectorState) : DirectorState :=
  let a : Vec3 := ⟨s.mouseVelocityX * 0.1, s.mouseVelocityY * 0.1, s.acceleration.z⟩
  let v : Vec3 := ⟨(s.velocity.x + a.x) * momentumDrag,
                   (s.velocity.y + a.y) * momentumDrag,
                   (s.velocity.z + a.z) * momentumDrag⟩
  { s with
    acceleration := a
    velocity := v
    cameraPosition := ⟨s.cameraPosition.x + v.x, s.cameraPosition.y + v.y,
                       s.cameraPosition.z + v.z⟩
    mouseVelocityX := s.mouseVelocityX * 0.85
    mouseVelocityY := s.mouseVelocityY * 0.85 }

/-- Squared Euclidean magnitude of a vector (comparisons of magnitudes
agree with comparisons of squared magnitudes on nonnegative values). -/
def Vec3.normSq (v : Vec3) : ℚ :=
  v.x ^ 2 + v.y ^ 2 + v.z ^ 2

/-- The all-zero director state: no momentum, no pointer velocity. -/
def restState : DirectorState :=
  ⟨⟨0, 0, 0⟩, ⟨0, 0, 0⟩, 0, 0, ⟨0, 0, 0⟩⟩

/-- The scroll scenario of the TransitionEngine test: scroll forward
through 0.80, 0.86, 0.96, 1.0, then keep ticking at scroll 1.0 with
deltaTime 0.1 s (8 morph ticks cover morphDuration 0.8 s, 4 settle
ticks cover settleDuration 0.4 s). -/
def c6Frames : List (ℚ × ℚ) :=
  [(0.80, 0.1), (0.86, 0.1), (0.96, 0.1), (1.0, 0.1)] ++
    List.replicate 12 (1.0, 0.1)

/-! ### Helper lemmas -/

theorem findScene_some (l : List Scene) :
    ∀ (i : ℕ) (z : ℚ) (hit : SceneHit), findScene l i z = some hit →
      0 ≤ hit.localProgress ∧ hit.localProgress ≤ 1 ∧ hit.scene ∈ l := by
  induction l with
  | nil => intro i z hit h; simp [findScene] at h
  | cons s rest ih =>
      intro i z hit h
      rw [findScene] at h
      split_ifs at h with hc
      · obtain rfl : SceneHit.mk s i (getLocalProgress s z) = hit := by
          simpa using h
        refine ⟨?_, ?_, List.mem_cons_self s rest⟩
        · exact le_min (by norm_num) (le_max_left 0 _)
        · exact min_le_left 1 _
      · obtain ⟨h0, h1, hm⟩ := ih (i + 1) z hit h
        exact ⟨h0, h1, List.mem_cons_of_mem s hm⟩

theorem getLastD_mem : ∀ (l : List Scene) (d : Scene), l ≠ [] → l.getLastD d ∈ l
  | [], _, h => absurd rfl h
  | [a], _, _ => by simp [List.getLastD]
  | a :: b :: rest, d, _ => by
      rw [List.getLastD_cons]
      exact List.mem_cons_of_mem a (getLastD_mem (b :: rest) a (by simp))

theorem getCurrentScene_localProgress_bounds (scenes : List Scene) (p : ℚ) :
    0 ≤ (getCurrentScene scenes p).localProgress ∧
    (getCurrentScene scenes p).localProgress ≤ 1 := by
  rw [getCurrentScene]
  cases hfs : findScene scenes 0 (-p * |(scenes.getLastD default).zEnd|) with
  | none => simp
  | some hit =>
      obtain ⟨h0, h1, _⟩ := findScene_some scenes 0 _ hit hfs
      simpa using ⟨h0, h1⟩

theorem getCurrentScene_scene_mem (scenes : List Scene) (h : scenes ≠ []) (p : ℚ) :
    (getCurrentScene scenes p).scene ∈ scenes := by
  rw [getCurrentScene]
  cases hfs : findScene scenes 0 (-p * |(scenes.getLastD default).zEnd|) with
  | none => simpa using getLastD_mem scenes default h
  | some hit =>
      obtain ⟨_, _, hm⟩ := findScene_some scenes 0 _ hit hfs
      simpa using hm

theorem easeInOutCubic_nonneg {t : ℚ} (h0 : 0 ≤ t) (h1 : t ≤ 1) :
    0 ≤ easeInOutCubic t := by
  rw [easeInOutCubic]
  split_ifs with hc
  · positivity
  · push_neg at hc
    have hu0 : (0:ℚ) ≤ -2 * t + 2 := by linarith
    have hu1 : (-2 * t + 2 : ℚ) ≤ 1 := by
      rw [show (0.5 : ℚ) = 1/2 by norm_num] at hc
      linarith
    have hcube := pow_le_pow_left₀ hu0 hu1 3
    norm_num at hcube
    linarith

theorem easeInOutCubic_le_one {t : ℚ} (h0 : 0 ≤ t) (h1 : t ≤ 1) :
    easeInOutCubic t ≤ 1 := by
  rw [easeInOutCubic]
  split_ifs with hc
  · have ht : t ≤ 1/2 := by
      rw [show (0.5 : ℚ) = 1/2 by norm_num] at hc
      linarith
    nlinarith [pow_le_pow_left₀ h0 ht 3]
  · nlinarith [pow_nonneg (by linarith : (0:ℚ) ≤ -2 * t + 2) 3]

theorem easeInOutCubic_mono {a b : ℚ} (h0 : 0 ≤ a) (hab : a ≤ b) (h1 : b ≤ 1) :
    easeInOutCubic a ≤ easeInOutCubic b := by
  have hb0 : (0:ℚ) ≤ b := le_trans h0 hab
  rw [easeInOutCubic, easeInOutCubic]
  rw [show (0.5 : ℚ) = 1/2 by norm_num]
  split_ifs with ha hb hb
  · nlinarith [pow_le_pow_left₀ h0 hab 3]
  · push_neg at hb
    have ha2 : a ≤ 1/2 := le_of_lt ha
    have hu0 : (0:ℚ) ≤ -2 * b + 2 := by linarith
    have hu1 : (-2 * b + 2 : ℚ) ≤ 1 := by linarith
    nlinarith [pow_le_pow_left₀ h0 ha2 3, pow_le_pow_left₀ hu0 hu1 3]
  · exact absurd (lt_of_le_of_lt hab hb) (by exact ha)
  · push_neg at ha hb
    have hu0 : (0:ℚ) ≤ -2 * b + 2 := by linarith
    have hkey := pow_le_pow_left₀ hu0 (by linarith : (-2 * b + 2 : ℚ) ≤ -2 * a + 2) 3
    linarith

theorem easeInOutCubic_one : easeInOutCubic 1 = 1 := by
  norm_num [easeInOutCubic]

theorem easeInOutCubic_zero : easeInOutCubic 0 = 0 := by
  norm_num [easeInOutCubic]

theorem zoneProgress_mem {lp : ℚ} (hz : 1 - anticipationDistance < lp) (h1 : lp ≤ 1) :
    0 ≤ (lp - (1 - anticipationDistance)) / anticipationDistance ∧
    (lp - (1 - anticipationDistance)) / anticipationDistance ≤ 1 := by
  rw [anticipationDistance] at *
  constructor
  · apply div_nonneg <;> [linarith; norm_num]
  · rw [div_le_one (by norm_num)]
    linarith

theorem cameraTransitionAmount_le_one {lp : ℚ} (h1 : lp ≤ 1) :
    cameraTransitionAmount lp ≤ 1 := by
  rw [cameraTransitionAmount]
  split_ifs with he hz
  · exact le_refl 1
  · obtain ⟨ht0, ht1⟩ := zoneProgress_mem hz h1
    have := easeInOutCubic_le_one ht0 ht1
    have := easeInOutCubic_nonneg ht0 ht1
    norm_num
    nlinarith
  · norm_num

/-! ### Claim C1 -/

/-- Claim C1, counterexample: at `scrollProgress = -1` the mapped depth
is `currentZ = 280`, which lies before the first scene's range
`[-50, 0]`; the nearest valid scene is therefore the first one
(index 0, `hero`), but `getCurrentScene` falls through its scan and
returns the **last** scene (index 3) with `localProgress = 1` — it does
not clamp to the nearest valid scene. -/
theorem C1_counterexample :
    (getCurrentScene definedScenes (-1)).index = 3 ∧
    (getCurrentScene definedScenes (-1)).index ≠ 0 ∧
    (getCurrentScene definedScenes (-1)).scene.name = "contact" := by
  have h : (getCurrentScene definedScenes (-1)).index = 3 := by
    norm_num [getCurrentScene, definedScenes, findScene, getLocalProgress, List.getLastD]
  have h2 : (getCurrentScene definedScenes (-1)).scene.name = "contact" := by
    norm_num [getCurrentScene, definedScenes, findScene, getLocalProgress, List.getLastD]
  exact ⟨h, by rw [h]; norm_num, h2⟩

/-- Claim C1 (amended): for every scroll progress over a non-empty scene
list, `getCurrentScene` returns exactly one result (it is a total
function into `SceneHit`), with `localProgress ∈ [0,1]` and the scene a
member of the list; whenever the scan finds no containing scene — which
includes every `scrollProgress < 0` as well as every
`scrollProgress > 1` — the fallback returns the **last** scene with
`localProgress = 1` (not the nearest scene). -/
theorem C1_amended_clamping (scenes : List Scene) (hne : scenes ≠ []) (p : ℚ) :
    0 ≤ (getCurrentScene scenes p).localProgress ∧
    (getCurrentScene scenes p).localProgress ≤ 1 ∧
    (getCurrentScene scenes p).scene ∈ scenes ∧
    (findScene scenes 0 (-p * |(scenes.getLastD default).zEnd|) = none →
      (getCurrentScene scenes p).scene = scenes.getLastD default ∧
      (getCurrentScene scenes p).index = scenes.length - 1 ∧
      (getCurrentScene scenes p).localProgress = 1) := by
  obtain ⟨h0, h1⟩ := getCurrentScene_localProgress_bounds scenes p
  refine ⟨h0, h1, getCurrentScene_scene_mem scenes hne p, fun hmiss => ?_⟩
  rw [getCurrentScene]
  simp only [hmiss]
  exact ⟨trivial, trivial, trivial⟩

/-- Witness for C1's amended theorem at the authored scene list and an
in-range and an out-of-range scroll value. -/
theorem C1_amended_clamping_witness :
    (0 ≤ (getCurrentScene definedScenes (1/2)).localProgress ∧
      (getCurrentScene definedScenes (1/2)).localProgress ≤ 1 ∧
      (getCurrentScene definedScenes (1/2)).scene ∈ definedScenes) ∧
    (getCurrentScene definedScenes 2).localProgress = 1 := by
  have h1 := C1_amended_clamping definedScenes (by simp [definedScenes]) (1/2)
  have h2 := C1_amended_clamping definedScenes (by simp [definedScenes]) 2
  refine ⟨⟨h1.1, h1.2.1, h1.2.2.1⟩, (h2.2.2.2 ?_).2.2⟩
  norm_num [definedScenes, findScene, List.getLastD, getLocalProgress]

/-! ### Claim C7 -/

/-- Claim C7 (confirmed): from any engine state, `forceTransitionTo`
with a valid scene index immediately sets the state to MORPHING, resets
`transitionProgress` to 0, records a transition whose `to` is the
indexed scene with `forced := true`, and overwrites `morphDuration`
with the given duration. -/
theorem C7_force_transition (scenes : List Scene) (csi : ℕ) (e : TransitionEngine)
    (sceneIndex : ℕ) (duration : ℚ) (target : Scene)
    (h : scenes.get? sceneIndex = some target) :
    (TransitionEngine.forceTransitionTo scenes csi e sceneIndex duration).state =
      TState.morphing ∧
    (TransitionEngine.forceTransitionTo scenes csi e sceneIndex duration).transitionProgress
      = 0 ∧
    (TransitionEngine.forceTransitionTo scenes csi e sceneIndex duration).morphDuration =
      duration ∧
    (TransitionEngine.forceTransitionTo scenes csi e sceneIndex duration).currentTransition =
      some ⟨scenes.get? csi, some target, true⟩ := by
  rw [TransitionEngine.forceTransitionTo, h]
  exact ⟨rfl, rfl, rfl, rfl⟩

/-- Witness for C7 at the call `forceTransitionTo(2, 0.5)` from a
non-idle state (the claim allows any state). -/
theorem C7_force_transition_witness :
    (TransitionEngine.forceTransitionTo definedScenes 0
        { TransitionEngine.mkEngine with state := TState.settling } 2 (1/2)).state =
      TState.morphing ∧
    (TransitionEngine.forceTransitionTo definedScenes 0
        { TransitionEngine.mkEngine with state := TState.settling } 2 (1/2)).morphDuration =
      1/2 ∧
    ((TransitionEngine.forceTransitionTo definedScenes 0
        { TransitionEngine.mkEngine with state := TState.settling } 2 (1/2)).currentTransition
      = some ⟨definedScenes.get? 0, definedScenes.get? 2, true⟩) := by
  have h := C7_force_transition definedScenes 0
    { TransitionEngine.mkEngine with state := TState.settling } 2 (1/2)
    ((definedScenes.get? 2).getD default) rfl
  exact ⟨h.1, h.2.2.1, h.2.2.2⟩

/-! ### Claim C8 -/

/-- Claim C8 (confirmed): for a scene name present in no scene of the
list, `addObjectToScene` leaves the scene list (including every scene's
object registry) unchanged, and `getObjectVisibility` returns 0 at
every scroll progress; both are total functions, so neither raises. -/
theorem C8_unknown_scene (scenes : List Scene) (sceneName : String) (obj : ℕ) (p : ℚ)
    (h : ∀ s ∈ scenes, s.name ≠ sceneName) :
    addObjectToScene scenes sceneName obj = scenes ∧
    getObjectVisibility scenes sceneName p = 0 := by
  constructor
  · induction scenes with
    | nil => rfl
    | cons s rest ih =>
        rw [addObjectToScene, if_neg (h s (List.mem_cons_self s rest))]
        rw [ih fun x hx => h x (List.mem_cons_of_mem s hx)]
  · have hfind : scenes.find? (fun s => s.name == sceneName) = none := by
      rw [List.find?_eq_none]
      intro x hx
      simpa using h x hx
    rw [getObjectVisibility, hfind]

/-- Witness for C8 at the authored scene list and the unknown name
`"about"`. -/
theorem C8_unknown_scene_witness :
    addObjectToScene definedScenes "about" 7 = definedScenes ∧
    getObjectVisibility definedScenes "about" (1/2) = 0 :=
  C8_unknown_scene definedScenes "about" 7 (1/2) (by simp [definedScenes])

/-! ### Claim C9 -/

/-- A nonzero vector has positive squared magnitude. -/
theorem Vec3.normSq_pos (v : Vec3) (h : v ≠ ⟨0, 0, 0⟩) : 0 < v.normSq := by
  rcases v with ⟨vx, vy, vz⟩
  rw [Vec3.normSq]
  rcases lt_or_le 0 (vx ^ 2 + vy ^ 2 + vz ^ 2) with hp | hle
  · exact hp
  · exfalso
    have hx2 : vx ^ 2 = 0 :=
      le_antisymm (by nlinarith [sq_nonneg vy, sq_nonneg vz]) (sq_nonneg vx)
    have hy2 : vy ^ 2 = 0 :=
      le_antisymm (by nlinarith [sq_nonneg vx, sq_nonneg vz]) (sq_nonneg vy)
    have hz2 : vz ^ 2 = 0 :=
      le_antisymm (by nlinarith [sq_nonneg vx, sq_nonneg vy]) (sq_nonneg vz)
    have hvx0 := (pow_eq_zero_iff (by norm_num : (2:ℕ) ≠ 0)).mp hx2
    have hvy0 := (pow_eq_zero_iff (by norm_num : (2:ℕ) ≠ 0)).mp hy2
    have hvz0 := (pow_eq_zero_iff (by norm_num : (2:ℕ) ≠ 0)).mp hz2
    exact h (by rw [hvx0, hvy0, hvz0])

/-- Claim C9, counterexample: with zero pointer velocity **and** zero
momentum velocity, `applyMomentum` leaves the velocity magnitude equal
to (not strictly less than) the previous frame's magnitude, so the
claimed strict per-frame decrease fails at the rest state. -/
theorem C9_counterexample :
    ¬ (applyMomentum restState).velocity.normSq < restState.velocity.normSq := by
  norm_num [applyMomentum, restState, Vec3.normSq, momentumDrag]

/-- Claim C9 (amended): with zero pointer velocity, `applyMomentum`
scales each velocity component by the drag 0.92, so the squared
magnitude shrinks by the factor 0.92², is **strictly** smaller whenever
the velocity is nonzero (and unchanged only at exactly zero velocity),
and no component ever reverses sign.  (The z acceleration is required
to be 0, which is invariant in the source: nothing ever writes it.) -/
theorem C9_momentum_decay (s : DirectorState)
    (hx : s.mouseVelocityX = 0) (hy : s.mouseVelocityY = 0) (hz : s.acceleration.z = 0) :
    (applyMomentum s).velocity.x = momentumDrag * s.velocity.x ∧
    (applyMomentum s).velocity.y = momentumDrag * s.velocity.y ∧
    (applyMomentum s).velocity.z = momentumDrag * s.velocity.z ∧
    (applyMomentum s).velocity.normSq = momentumDrag ^ 2 * s.velocity.normSq ∧
    (s.velocity ≠ ⟨0, 0, 0⟩ →
      (applyMomentum s).velocity.normSq < s.velocity.normSq) ∧
    (0 < s.velocity.x → 0 < (applyMomentum s).velocity.x) ∧
    (s.velocity.x < 0 → (applyMomentum s).velocity.x < 0) ∧
    (0 < s.velocity.y → 0 < (applyMomentum s).velocity.y) ∧
    (s.velocity.y < 0 → (applyMomentum s).velocity.y < 0) ∧
    (0 < s.velocity.z → 0 < (applyMomentum s).velocity.z) ∧
    (s.velocity.z < 0 → (applyMomentum s).velocity.z < 0) := by
  have hvx : (applyMomentum s).velocity.x = momentumDrag * s.velocity.x := by
    simp [applyMomentum, hx]; ring
  have hvy : (applyMomentum s).velocity.y = momentumDrag * s.velocity.y := by
    simp [applyMomentum, hy]; ring
  have hvz : (applyMomentum s).velocity.z = momentumDrag * s.velocity.z := by
    simp [applyMomentum, hz]; ring
  have hnsq : (applyMomentum s).velocity.normSq = momentumDrag ^ 2 * s.velocity.normSq := by
    rw [Vec3.normSq, Vec3.normSq, hvx, hvy, hvz]; ring
  refine ⟨hvx, hvy, hvz, hnsq, fun hne => ?_, ?_, ?_, ?_, ?_, ?_, ?_⟩
  · have hpos : 0 < s.velocity.normSq := Vec3.normSq_pos s.velocity hne
    rw [hnsq, momentumDrag]
    nlinarith
  all_goals rw [momentumDrag] at *
  · rw [hvx]; intro h; nlinarith
  · rw [hvx]; intro h; nlinarith
  · rw [hvy]; intro h; nlinarith
  · rw [hvy]; intro h; nlinarith
  · rw [hvz]; intro h; nlinarith
  · rw [hvz]; intro h; nlinarith

/-! ### Claim C2 -/

/-- Claim C2, counterexample: across the hero→philosophy boundary the
camera blend is **not** continuous.  Over a scroll step of only
10⁻⁶ (from just before the boundary to the boundary itself) the camera
x-coordinate moves by more than 3.5 — i.e. by more than 70% of the
whole 5-unit gap between the two scenes' camera x positions — because
the anticipation zone only ever reaches a blend of 0.3 while
`localProgress = 1` forces the blend to 1.  Inside the zone the same
step changes the blend only infinitesimally, so this is a discontinuous
jump (a camera pop), not one interpolation step. -/
theorem C2_counterexample :
    (getInterpolatedCamera definedScenes (5/28 - 1/1000000)).position.x -
      (getInterpolatedCamera definedScenes (5/28)).position.x > 7/2 ∧
    (5/28 : ℚ) - (5/28 - 1/1000000) = 1/1000000 := by
  constructor
  · have e2 : (getInterpolatedCamera definedScenes (5/28)).position.x = -5 := by
      norm_num [getInterpolatedCamera, getCurrentScene, definedScenes, findScene,
        getLocalProgress, List.getLastD, cameraTransitionAmount, anticipationDistance,
        lerp, easeInOutCubic]
    rw [e2]
    norm_num [getInterpolatedCamera, getCurrentScene, definedScenes, findScene,
      getLocalProgress, List.getLastD, cameraTransitionAmount, anticipationDistance,
      lerp, easeInOutCubic, abs_of_nonneg, abs_of_nonpos, min_eq_right, max_eq_right,
      min_eq_left, max_eq_left]
  · norm_num

/-- Claim C2 (amended): the camera blend amount is monotone
non-decreasing in `localProgress` over [0,1] and the handoff at a
boundary is consistent from the right: at the exact boundary the
returned camera (and shader) already equal the next scene's values.
But the blend is capped at 0.3 for every `localProgress < 1` and jumps
to 1 exactly at `localProgress = 1`, so approaching a boundary from
below the camera output is **discontinuous** there (70% of the gap is
crossed in one jump); only the shader blend completes continuously
within the anticipation window. -/
theorem C2_amended_monotone_blend :
    (∀ a b : ℚ, 0 ≤ a → a ≤ b → b ≤ 1 →
        cameraTransitionAmount a ≤ cameraTransitionAmount b) ∧
    (∀ lp : ℚ, 0 ≤ lp → lp < 1 → cameraTransitionAmount lp ≤ 0.3) ∧
    cameraTransitionAmount 1 = 1 ∧
    getInterpolatedCamera definedScenes (5/28) =
      { position := ⟨-5, 3, -80⟩, lookAt := ⟨0, 0, -85⟩, fov := 60 } ∧
    getInterpolatedShader definedScenes (5/28) =
      { colorA0 := 0.62, colorA1 := 0.31, colorA2 := 0.87,
        colorB0 := 0.09, colorB1 := 0, colorB2 := 0.12, frequency := 1.2 } := by
  have hone : cameraTransitionAmount 1 = 1 := by
    rw [cameraTransitionAmount, if_pos rfl]
  have hcap : ∀ lp : ℚ, 0 ≤ lp → lp < 1 → cameraTransitionAmount lp ≤ 0.3 := by
    intro lp h0 h1
    rw [cameraTransitionAmount, if_neg (ne_of_lt h1)]
    split_ifs with hz
    · obtain ⟨ht0, ht1⟩ := zoneProgress_mem hz (le_of_lt h1)
      have he1 := easeInOutCubic_le_one ht0 ht1
      have he0 := easeInOutCubic_nonneg ht0 ht1
      norm_num
      nlinarith
    · norm_num
  refine ⟨?_, hcap, hone, ?_, ?_⟩
  · intro a b ha hab hb1
    by_cases hb : b = 1
    · rw [hb, hone]
      exact cameraTransitionAmount_le_one (le_trans hab hb1)
    · have hblt : b < 1 := lt_of_le_of_ne hb1 hb
      have ha1 : a ≠ 1 := ne_of_lt (lt_of_le_of_lt hab hblt)
      rw [cameraTransitionAmount, cameraTransitionAmount, if_neg ha1, if_neg hb]
      split_ifs with hza hzb hzb
      · obtain ⟨hta0, hta1⟩ := zoneProgress_mem hza (le_trans hab hb1)
        obtain ⟨htb0, htb1⟩ := zoneProgress_mem hzb hb1
        have hdiv : (a - (1 - anticipationDistance)) / anticipationDistance ≤
            (b - (1 - anticipationDistance)) / anticipationDistance := by
          rw [anticipationDistance]
          exact (div_le_div_iff_of_pos_right (by norm_num)).mpr (by linarith)
        exact mul_le_mul_of_nonneg_right (easeInOutCubic_mono hta0 hdiv htb1) (by norm_num)
      · exact absurd hza (by linarith [not_lt.mp hzb])
      · obtain ⟨htb0, htb1⟩ := zoneProgress_mem hzb hb1
        exact mul_nonneg (easeInOutCubic_nonneg htb0 htb1) (by norm_num)
      · exact le_refl 0
  · norm_num [getInterpolatedCamera, getCurrentScene, definedScenes, findScene,
      getLocalProgress, List.getLastD, cameraTransitionAmount, anticipationDistance,
      lerp, easeInOutCubic]
  · norm_num [getInterpolatedShader, getCurrentScene, definedScenes, findScene,
      getLocalProgress, List.getLastD, shaderTransitionAmount, anticipationDistance,
      lerp, easeInOutCubic]

/-- Witness for C2's amended theorem: monotonicity and the 0.3 cap at
concrete blend inputs inside the anticipation zone. -/
theorem C2_amended_monotone_blend_witness :
    cameraTransitionAmount (9/10) ≤ cameraTransitionAmount (19/20) ∧
    cameraTransitionAmount (9/10) ≤ 0.3 := by
  have h := C2_amended_monotone_blend
  exact ⟨h.1 (9/10) (19/20) (by norm_num) (by norm_num) (by norm_num),
    h.2.1 (9/10) (by norm_num) (by norm_num)⟩

/-! ### Claim C3 -/

/-- Claim C3 (confirmed): with a next scene present, the camera's
`transitionAmount` is 0 at or below the anticipation threshold, equals
`easeInOutCubic(zone-normalized progress) * 0.3` (hence is at most 0.3)
strictly inside the zone below `localProgress = 1`, and is forced to 1
exactly at `localProgress = 1`; every component of position, look-at
and fov is linearly interpolated between the current and next scene's
camera by this amount. -/
theorem C3_camera_transition (scenes : List Scene) (p : ℚ) (hit : SceneHit)
    (nextScene : Scene) (hhit : getCurrentScene scenes p = hit)
    (hnext : scenes.get? (hit.index + 1) = some nextScene) :
    (hit.localProgress ≤ 1 - anticipationDistance →
        cameraTransitionAmount hit.localProgress = 0) ∧
    (1 - anticipationDistance < hit.localProgress → hit.localProgress ≠ 1 →
        cameraTransitionAmount hit.localProgress =
          easeInOutCubic ((hit.localProgress - (1 - anticipationDistance)) /
            anticipationDistance) * 0.3 ∧
        cameraTransitionAmount hit.localProgress ≤ 0.3) ∧
    (hit.localProgress = 1 → cameraTransitionAmount hit.localProgress = 1) ∧
    getInterpolatedCamera scenes p =
      { position :=
          ⟨lerp hit.scene.camera.position.x nextScene.camera.position.x
              (cameraTransitionAmount hit.localProgress),
            lerp hit.scene.camera.position.y nextScene.camera.position.y
              (cameraTransitionAmount hit.localProgress),
            lerp hit.scene.camera.position.z nextScene.camera.position.z
              (cameraTransitionAmount hit.localProgress)⟩,
        lookAt :=
          ⟨lerp hit.scene.camera.lookAt.x nextScene.camera.lookAt.x
              (cameraTransitionAmount hit.localProgress),
            lerp hit.scene.camera.lookAt.y nextScene.camera.lookAt.y
              (cameraTransitionAmount hit.localProgress),
            lerp hit.scene.camera.lookAt.z nextScene.camera.lookAt.z
              (cameraTransitionAmount hit.localProgress)⟩,
        fov := lerp hit.scene.camera.fov nextScene.camera.fov
          (cameraTransitionAmount hit.localProgress) } := by
  have hb := getCurrentScene_localProgress_bounds scenes p
  rw [hhit] at hb
  refine ⟨fun hout => ?_, fun hin hne1 => ?_, fun h1 => ?_, ?_⟩
  · have hne : hit.localProgress ≠ 1 := by
      rw [anticipationDistance] at hout
      intro hcontra
      rw [hcontra] at hout
      norm_num at hout
    rw [cameraTransitionAmount, if_neg hne, if_neg (not_lt.mpr hout)]
  · obtain ⟨ht0, ht1⟩ := zoneProgress_mem hin hb.2
    have heq : cameraTransitionAmount hit.localProgress =
        easeInOutCubic ((hit.localProgress - (1 - anticipationDistance)) /
          anticipationDistance) * 0.3 := by
      rw [cameraTransitionAmount, if_neg hne1, if_pos hin]
    refine ⟨heq, ?_⟩
    rw [heq]
    have := easeInOutCubic_le_one ht0 ht1
    have := easeInOutCubic_nonneg ht0 ht1
    norm_num
    nlinarith
  · rw [h1, cameraTransitionAmount, if_pos rfl]
  · rw [getInterpolatedCamera, hhit]
    simp only [hnext]

/-- Witness for C3: scroll 1/4 sits below the anticipation threshold of
scene `philosophy` (amount 0), scroll 5/28 is exactly the hero boundary
(`localProgress = 1`, amount forced to 1); both have a next scene. -/
theorem C3_camera_transition_witness :
    cameraTransitionAmount (getCurrentScene definedScenes (1/4)).localProgress = 0 ∧
    cameraTransitionAmount (getCurrentScene definedScenes (5/28)).localProgress = 1 := by
  have hidx1 : (getCurrentScene definedScenes (1/4)).index = 1 := by
    norm_num [getCurrentScene, definedScenes, findScene, getLocalProgress, List.getLastD]
  have hidx0 : (getCurrentScene definedScenes (5/28)).index = 0 := by
    norm_num [getCurrentScene, definedScenes, findScene, getLocalProgress, List.getLastD]
  have h1 := C3_camera_transition definedScenes (1/4) (getCurrentScene definedScenes (1/4))
    ((definedScenes.get? ((getCurrentScene definedScenes (1/4)).index + 1)).getD default)
    rfl (by rw [hidx1]; rfl)
  have h2 := C3_camera_transition definedScenes (5/28) (getCurrentScene definedScenes (5/28))
    ((definedScenes.get? ((getCurrentScene definedScenes (5/28)).index + 1)).getD default)
    rfl (by rw [hidx0]; rfl)
  refine ⟨h1.1 ?_, h2.2.2.1 ?_⟩
  · norm_num [getCurrentScene, definedScenes, findScene, getLocalProgress, List.getLastD,
      anticipationDistance]
  · norm_num [getCurrentScene, definedScenes, findScene, getLocalProgress, List.getLastD]

/-! ### Claim C4 -/

/-- Claim C4 (confirmed): the shader blend factor has no 0.3 scale and
no forced-1 step — inside the anticipation zone it is exactly the
cubic ease of the zone-normalized progress, and it spans the full [0,1]
range over the window (0 at the zone threshold, 1 at
`localProgress = 1`); with a next scene each of the six color channels
plus the frequency is independently lerped by it, and with no next
scene the scene's static shader is returned. -/
theorem C4_shader_transition (scenes : List Scene) (p : ℚ) (hit : SceneHit)
    (hhit : getCurrentScene scenes p = hit) :
    (∀ lp : ℚ, 1 - anticipationDistance < lp →
        shaderTransitionAmount lp =
          easeInOutCubic ((lp - (1 - anticipationDistance)) / anticipationDistance)) ∧
    shaderTransitionAmount (1 - anticipationDistance) = 0 ∧
    shaderTransitionAmount 1 = 1 ∧
    (∀ nextScene : Scene, scenes.get? (hit.index + 1) = some nextScene →
        getInterpolatedShader scenes p =
          { colorA0 := lerp hit.scene.shader.colorA0 nextScene.shader.colorA0
              (shaderTransitionAmount hit.localProgress),
            colorA1 := lerp hit.scene.shader.colorA1 nextScene.shader.colorA1
              (shaderTransitionAmount hit.localProgress),
            colorA2 := lerp hit.scene.shader.colorA2 nextScene.shader.colorA2
              (shaderTransitionAmount hit.localProgress),
            colorB0 := lerp hit.scene.shader.colorB0 nextScene.shader.colorB0
              (shaderTransitionAmount hit.localProgress),
            colorB1 := lerp hit.scene.shader.colorB1 nextScene.shader.colorB1
              (shaderTransitionAmount hit.localProgress),
            colorB2 := lerp hit.scene.shader.colorB2 nextScene.shader.colorB2
              (shaderTransitionAmount hit.localProgress),
            frequency := lerp hit.scene.shader.frequency nextScene.shader.frequency
              (shaderTransitionAmount hit.localProgress) }) ∧
    (scenes.get? (hit.index + 1) = none →
        getInterpolatedShader scenes p = hit.scene.shader) := by
  refine ⟨fun lp hin => ?_, ?_, ?_, fun nextScene hnext => ?_, fun hnone => ?_⟩
  · rw [shaderTransitionAmount, if_pos hin]
  · rw [shaderTransitionAmount, if_neg (lt_irrefl _)]
  · rw [shaderTransitionAmount, if_pos (by rw [anticipationDistance]; norm_num)]
    rw [show (1 - (1 - anticipationDistance)) / anticipationDistance = 1 by
      rw [anticipationDistance]; norm_num]
    exact easeInOutCubic_one
  · rw [getInterpolatedShader, hhit]
    simp only [hnext]
  · rw [getInterpolatedShader, hhit]
    simp only [hnone]

/-- Witness for C4: the shader blend is 1 at the hero boundary
(scroll 5/28), so the returned shader there is fully the next scene's
palette; and at scroll 1 (last scene, no next) the static shader of
`contact` is returned. -/
theorem C4_shader_transition_witness :
    shaderTransitionAmount 1 = 1 ∧
    getInterpolatedShader definedScenes 1 =
      (getCurrentScene definedScenes 1).scene.shader := by
  have hidx : (getCurrentScene definedScenes 1).index = 3 := by
    norm_num [getCurrentScene, definedScenes, findScene, getLocalProgress, List.getLastD]
  have h := C4_shader_transition definedScenes 1 (getCurrentScene definedScenes 1) rfl
  exact ⟨h.2.2.1, h.2.2.2.2 (by rw [hidx]; rfl)⟩

/-! ### Claim C5 -/

/-- Claim C5 (confirmed): `getObjectVisibility` over the authored scene
list returns 0 whenever the named scene is not the currently active
one (including unknown names), and when it is active the result is the
piecewise ramp `localProgress / 0.2` below 0.2, then 1 up to 0.8, then
`1 - (localProgress - 0.8) / 0.2`; in particular 0 at `localProgress`
0, 1 at 1/2, and 0 at 1. -/
theorem C5_object_visibility (sceneName : String) (p : ℚ) (hp0 : 0 ≤ p) (hp1 : p ≤ 1) :
    ((getCurrentScene definedScenes p).scene.name ≠ sceneName →
        getObjectVisibility definedScenes sceneName p = 0) ∧
    ((getCurrentScene definedScenes p).scene.name = sceneName →
        getObjectVisibility definedScenes sceneName p =
          (if (getCurrentScene definedScenes p).localProgress < 0.2 then
            (getCurrentScene definedScenes p).localProgress / 0.2
          else if (getCurrentScene definedScenes p).localProgress > 0.8 then
            1 - (((getCurrentScene definedScenes p).localProgress - 0.8) / 0.2)
          else 1) ∧
        ((getCurrentScene definedScenes p).localProgress = 0 →
          getObjectVisibility definedScenes sceneName p = 0) ∧
        ((getCurrentScene definedScenes p).localProgress = 1/2 →
          getObjectVisibility definedScenes sceneName p = 1) ∧
        ((getCurrentScene definedScenes p).localProgress = 1 →
          getObjectVisibility definedScenes sceneName p = 0)) := by
  constructor
  · intro hne
    rw [getObjectVisibility]
    cases hf : definedScenes.find? (fun s => s.name == sceneName) with
    | none => rfl
    | some s => simp only [if_neg hne]
  · intro hname
    have hmem := getCurrentScene_scene_mem definedScenes (by simp [definedScenes]) p
    have hsome : (definedScenes.find? (fun s => s.name == sceneName)).isSome := by
      rw [List.find?_isSome]
      exact ⟨_, hmem, by simp [hname]⟩
    obtain ⟨s, hs⟩ := Option.isSome_iff_exists.mp hsome
    have hmain : getObjectVisibility definedScenes sceneName p =
        (if (getCurrentScene definedScenes p).localProgress < 0.2 then
          (getCurrentScene definedScenes p).localProgress / 0.2
        else if (getCurrentScene definedScenes p).localProgress > 0.8 then
          1 - (((getCurrentScene definedScenes p).localProgress - 0.8) / 0.2)
        else 1) := by
      rw [getObjectVisibility, hs, if_pos hname]
    refine ⟨hmain, fun h0 => ?_, fun hhalf => ?_, fun h1 => ?_⟩
    · rw [hmain, h0]; norm_num
    · rw [hmain, hhalf]; norm_num
    · rw [hmain, h1]; norm_num

/-- Witness for C5: at scroll 1/4 the active scene is `philosophy` with
localProgress 2/7 (plateau, visibility 1), while `hero` is inactive
(visibility 0). -/
theorem C5_object_visibility_witness :
    getObjectVisibility definedScenes "philosophy" (1/4) = 1 ∧
    getObjectVisibility definedScenes "hero" (1/4) = 0 := by
  have hname : (getCurrentScene definedScenes (1/4)).scene.name = "philosophy" := by
    norm_num [getCurrentScene, definedScenes, findScene, getLocalProgress, List.getLastD]
  have h1 := (C5_object_visibility "philosophy" (1/4) (by norm_num) (by norm_num)).2 hname
  have h2 := (C5_object_visibility "hero" (1/4) (by norm_num) (by norm_num)).1
    (by rw [hname]; simp)
  refine ⟨?_, h2⟩
  rw [h1.1]
  have hlp : (getCurrentScene definedScenes (1/4)).localProgress = 2/7 := by
    norm_num [getCurrentScene, definedScenes, findScene, getLocalProgress, List.getLastD]
  rw [hlp]
  norm_num

/-! ### Claim C6 -/

/-- Claim C6 (confirmed): starting from IDLE over the authored 4-scene
list and feeding scroll 0.80 → 0.86 → 0.96 → 1.0 forward, then ticking
at deltaTime 0.1 s, the engine traverses exactly
IDLE → ANTICIPATE → MORPHING (8 ticks = morphDuration 0.8 s) →
SETTLING (4 ticks = settleDuration 0.4 s) → IDLE, fires
onAnticipate, onMorph, onSettle, onComplete each exactly once and in
that order, and clears the current transition on completion. -/
theorem C6_scenario :
    (runScenario definedScenes TransitionEngine.mkEngine c6Frames).2.1 =
      [TState.idle, TState.idle, TState.anticipating,
       TState.morphing, TState.morphing, TState.morphing, TState.morphing,
       TState.morphing, TState.morphing, TState.morphing, TState.morphing,
       TState.settling, TState.settling, TState.settling, TState.settling,
       TState.idle] ∧
    (runScenario definedScenes TransitionEngine.mkEngine c6Frames).2.2 =
      [TEvent.onAnticipate, TEvent.onMorph, TEvent.onSettle, TEvent.onComplete] ∧
    (runScenario definedScenes TransitionEngine.mkEngine c6Frames).1.state = TState.idle ∧
    (runScenario definedScenes TransitionEngine.mkEngine c6Frames).1.currentTransition
      = none := by
  norm_num [runScenario, c6Frames, TransitionEngine.update, TransitionEngine.mkEngine,
    TransitionEngine.enterAnticipation, TransitionEngine.enterMorph,
    TransitionEngine.enterSettle, TransitionEngine.updateMorph, TransitionEngine.updateSettle,
    getCurrentScene, definedScenes, findScene, getLocalProgress, List.getLastD,
    List.replicate, abs_of_nonneg, abs_of_nonpos, min_eq_right, max_eq_right, min_eq_left,
    max_eq_left]

/-! ### Claim C10 -/

theorem update_morphDuration (scenes : List Scene) (e : TransitionEngine) (p dt : ℚ) :
    (TransitionEngine.update scenes e p dt).1.morphDuration = e.morphDuration := by
  rcases e with ⟨st, tp, ct, ps, sd, ad, md, sdur, ov⟩
  rw [TransitionEngine.update]
  cases st <;>
    simp only [TransitionEngine.enterAnticipation, TransitionEngine.enterMorph,
      TransitionEngine.updateMorph, TransitionEngine.updateSettle,
      TransitionEngine.enterSettle] <;>
    split_ifs <;> rfl

theorem runScenario_morphDuration (scenes : List Scene) :
    ∀ (frames : List (ℚ × ℚ)) (e : TransitionEngine),
      (runScenario scenes e frames).1.morphDuration = e.morphDuration := by
  intro frames
  induction frames with
  | nil => intro e; rfl
  | cons f rest ih =>
      intro e
      rcases f with ⟨p, dt⟩
      rw [runScenario]
      dsimp only
      rw [ih, update_morphDuration]

theorem update_morphing_progress (scenes : List Scene) (e : TransitionEngine) (p dt : ℚ)
    (hst : e.state = TState.morphing)
    (hlt : e.transitionProgress + dt / e.morphDuration < 1) :
    (TransitionEngine.update scenes e p dt).1.transitionProgress =
      e.transitionProgress + dt / e.morphDuration := by
  rcases e with ⟨st, tp, ct, ps, sd, ad, md, sdur, ov⟩
  subst hst
  rw [TransitionEngine.update]
  simp only [TransitionEngine.updateMorph, TransitionEngine.enterSettle]
  dsimp only at hlt ⊢
  split_ifs <;> first | rfl | (exfalso; linarith)

/-- Claim C10 (confirmed): `forceTransitionTo` writes the given duration
into `config.morphDuration`; no later `update` (hence no completed
transition) ever changes `morphDuration` back, so the override persists
across any frame sequence; and every scroll-driven MORPHING tick
accumulates `transitionProgress` by `deltaTime / morphDuration` against
the engine's (possibly overridden) duration. -/
theorem C10_override_persists (scenes : List Scene) (csi : ℕ) (e : TransitionEngine)
    (sceneIndex : ℕ) (duration : ℚ) (target : Scene)
    (h : scenes.get? sceneIndex = some target) (frames : List (ℚ × ℚ))
    (e' : TransitionEngine) (p dt : ℚ) (hst : e'.state = TState.morphing)
    (hlt : e'.transitionProgress + dt / e'.morphDuration < 1) :
    (TransitionEngine.forceTransitionTo scenes csi e sceneIndex duration).morphDuration =
      duration ∧
    (runScenario scenes (TransitionEngine.forceTransitionTo scenes csi e sceneIndex duration)
        frames).1.morphDuration = duration ∧
    (TransitionEngine.update scenes e' p dt).1.transitionProgress =
      e'.transitionProgress + dt / e'.morphDuration := by
  have hmd : (TransitionEngine.forceTransitionTo scenes csi e sceneIndex duration).morphDuration
      = duration := by
    rw [TransitionEngine.forceTransitionTo, h]
  refine ⟨hmd, ?_, update_morphing_progress scenes e' p dt hst hlt⟩
  rw [runScenario_morphDuration, hmd]

/-- Witness for C10: force scene 2 with duration 0.5, run two further
frames, and advance one morph tick against the overridden duration. -/
theorem C10_override_persists_witness :
    (TransitionEngine.forceTransitionTo definedScenes 0 TransitionEngine.mkEngine 2
        (1/2)).morphDuration = 1/2 ∧
    (runScenario definedScenes
        (TransitionEngine.forceTransitionTo definedScenes 0 TransitionEngine.mkEngine 2 (1/2))
        [(1, 1/10), (1, 1/10)]).1.morphDuration = 1/2 ∧
    (TransitionEngine.update definedScenes
        (TransitionEngine.forceTransitionTo definedScenes 0 TransitionEngine.mkEngine 2 (1/2))
        1 (1/10)).1.transitionProgress =
      (TransitionEngine.forceTransitionTo definedScenes 0 TransitionEngine.mkEngine 2
          (1/2)).transitionProgress +
        (1/10) / (TransitionEngine.forceTransitionTo definedScenes 0 TransitionEngine.mkEngine 2
          (1/2)).morphDuration := by
  refine C10_override_persists definedScenes 0 TransitionEngine.mkEngine 2 (1/2)
    ((definedScenes.get? 2).getD default) rfl [(1, 1/10), (1, 1/10)] _ 1 (1/10) rfl ?_
  norm_num [TransitionEngine.forceTransitionTo, TransitionEngine.mkEngine, definedScenes]

/-- Witness for C9's amended theorem at a concrete moving state. -/
theorem C9_momentum_decay_witness :
    (applyMomentum ⟨⟨1, -2, 0⟩, ⟨0, 0, 0⟩, 0, 0, ⟨0, 0, 0⟩⟩).velocity.normSq <
      (Vec3.mk 1 (-2) 0).normSq ∧
    0 < (applyMomentum ⟨⟨1, -2, 0⟩, ⟨0, 0, 0⟩, 0, 0, ⟨0, 0, 0⟩⟩).velocity.x := by
  have h := C9_momentum_decay ⟨⟨1, -2, 0⟩, ⟨0, 0, 0⟩, 0, 0, ⟨0, 0, 0⟩⟩ rfl rfl rfl
  exact ⟨h.2.2.2.2.1 (by norm_num [Vec3.mk.injEq]), h.2.2.2.2.2.1 (by norm_num)⟩

end SpatialMotion
